import Mathlib

/-!
Verification of the path-resolution utility (`JupyterAbstractPath`) and the
notebook-creation routine (`createJupyterNotebook`) of the obsidian-ipynb-viewer
plugin.

Strings are modelled as Lean `String` (a wrapper around `List Char`); the
JavaScript string operations used by the code (`substring`, `startsWith`,
`endsWith` with a one-character pattern) are given faithful models below.
The host API of Obsidian (the `Vault`, its filesystem adapter, and
`normalizePath`) is not part of this repository; it is modelled from the spec.
-/

namespace IpynbViewerSpec

/-- Modelled from the spec: the separator conversion step of Obsidian's
`normalizePath` host API (not part of this repository's sources).  The spec
requires a "consistent separator character", so backslashes become slashes. -/
def slashify (c : Char) : Char := if c = '\\' then '/' else c

/-- Modelled from the spec: applies `slashify` to every character. -/
def mapSlash (l : List Char) : List Char := l.map slashify

/-- Modelled from the spec: the redundant-separator removal step of Obsidian's
`normalizePath` host API (not part of this repository's sources).  The spec
requires "no redundant separators", so runs of '/' collapse to a single '/'. -/
def collapseSlashes : List Char → List Char
  | [] => []
  | [c] => [c]
  | a :: b :: t =>
    if a = '/' ∧ b = '/' then collapseSlashes (b :: t)
    else a :: collapseSlashes (b :: t)

/-- Modelled from the spec: Obsidian's `normalizePath` host API (not part of
this repository's sources), described by the spec as putting a path in "a
normalized form (no redundant separators, consistent separator character)". -/
def normalizePath (s : String) : String := ⟨collapseSlashes (mapSlash s.data)⟩

/-- JavaScript `s.endsWith("/")` for the one-character pattern used by the code:
true iff the last character of `s` is '/'. -/
def strEndsWithSlash (s : String) : Bool := s.data.getLast? = some '/'

/-- JavaScript `s.startsWith("/")` for the one-character pattern used by the
code: true iff the first character of `s` is '/'. -/
def strHeadSlash (s : String) : Bool := s.data.head? = some '/'

/-- JavaScript `s.startsWith(t)` for a general pattern `t`. -/
def strStartsWith (s t : String) : Bool := t.data.isPrefixOf s.data

/-- JavaScript `s.substring(a, b)`: both indices are clamped into
`[0, s.length]`, swapped if out of order, and the characters in between are
returned.  The index arguments are integers because the code computes
`length - 1`, which can be negative. -/
def jsSubstring (s : String) (a b : Int) : String :=
  let n : Int := (s.data.length : Int)
  let a' : Nat := (max 0 (min a n)).toNat
  let b' : Nat := (max 0 (min b n)).toNat
  ⟨(s.data.drop (min a' b')).take (max a' b' - min a' b')⟩

/-- JavaScript `s.substring(n)` for a non-negative index `n`: drops the first
`n` characters (clamping at the end of the string). -/
def jsDrop (s : String) (n : Nat) : String := ⟨s.data.drop n⟩

/-- The leading-separator strip performed by `append` (part_000, lines 186-188)
and `fromRelative` (lines 243-245): `if (s.startsWith('/')) s = s.substring(1)`. -/
def stripLeadingSlash (s : String) : String :=
  if strHeadSlash s then jsDrop s 1 else s

/-- The error kinds thrown by the code. -/
inductive JupyterError where
  /-- "Invalid environment : Jupyter for Obsidian needs a FileSystemAdapter
  instance to work with absolute paths." (`getVaultRootPath`) -/
  | invalidEnvironment
  /-- "Invalid argument in JupyterAbstractPath constructor : `relative` must
  not be `null` if `isInVault` is set to `true`" (the constructor) -/
  | invalidArgument
  /-- "Cannot append a path to a file, the instance must represent a folder."
  (`append`) -/
  | cannotAppendToFile
  /-- "Creating a new notebook can only be done within the vault."
  (`createJupyterNotebook`) -/
  | notebookOutsideVault
deriving DecidableEq, Repr

/-- Modelled from the spec: the Obsidian `Vault` host object (not part of this
repository's sources).  All the code reads from it is the base path of its
filesystem adapter; `basePath = none` models a vault whose adapter is not a
`FileSystemAdapter`. -/
structure Vault where
  basePath : Option String
deriving DecidableEq, Repr

/-- Embeds `getVaultRootPath` (part_000, lines 10-17): returns the adapter's
base path, or throws the environment error when there is no
`FileSystemAdapter`. -/
def getVaultRootPath (v : Vault) : Except JupyterError String :=
  match v.basePath with
  | some p => Except.ok p
  | none => Except.error JupyterError.invalidEnvironment

/-- Embeds the free function `inVault` (part_000, lines 29-40) for a string
argument: a pure prefix test of `path` against the root (fetched from the
vault when `root` is `none`, exactly as the `null` default in the code). -/
def inVault (path : String) (v : Vault) (root : Option String) :
    Except JupyterError Bool :=
  match root with
  | some r => Except.ok (strStartsWith path r)
  | none => (getVaultRootPath v).map (fun r => strStartsWith path r)

/-- The four private fields of the `JupyterAbstractPath` class
(part_000, lines 52-83). -/
structure JupyterAbstractPath where
  absolutePath : String
  relativePath : Option String
  isDirectory : Bool
  isInVault : Bool
deriving DecidableEq, Repr

namespace JupyterAbstractPath

/-- Embeds lines 95-103 of the constructor: normalize the absolute path, then
append a trailing '/' for folders that lack one, or strip the trailing '/'
from files via `substring(0, absolute.length - 1)`. -/
def normalizeAbs (isFolder : Bool) (absolute : String) : String :=
  let a1 := normalizePath absolute
  if isFolder ∧ ¬ strEndsWithSlash a1 then a1 ++ "/"
  else if ¬ isFolder ∧ strEndsWithSlash a1 then
    jsSubstring a1 0 ((a1.data.length : Int) - 1)
  else a1

/-- Embeds lines 112-119 of the constructor: the trailing-separator adjustment
of the relative path.  Note line 117 of the source truncates with
`absolute.length - 1` (the length of the already-processed absolute path
`absFinal`), not `relative.length - 1`. -/
def adjustRel (isFolder : Bool) (absFinal : String) (relative : String) :
    String :=
  if isFolder ∧ ¬ strEndsWithSlash relative then relative ++ "/"
  else if ¬ isFolder ∧ strEndsWithSlash relative then
    jsSubstring relative 0 ((absFinal.data.length : Int) - 1)
  else relative

/-- Embeds the `JupyterAbstractPath` constructor (part_000, lines 94-125).
Fallible: throws `invalidArgument` when `isInVault` is true but `relative`
is `none` (line 110). -/
def construct (absolute : String) (relative : Option String)
    (isFolder : Bool) (isInVault : Bool) :
    Except JupyterError JupyterAbstractPath :=
  let a := normalizeAbs isFolder absolute
  if isInVault then
    match relative with
    | none => Except.error JupyterError.invalidArgument
    | some r => Except.ok ⟨a, some (adjustRel isFolder a r), isFolder, true⟩
  else
    Except.ok ⟨a, none, isFolder, false⟩

/-- Embeds `getAbsolutePath` (part_000, lines 134-136). -/
def getAbsolutePath (p : JupyterAbstractPath) : String := p.absolutePath

/-- Embeds `getRelativePath` (part_000, lines 147-153): `null` when the
instance is not in the vault, the stored relative path otherwise. -/
def getRelativePath (p : JupyterAbstractPath) : Option String :=
  if ¬ p.isInVault then none else p.relativePath

/-- Embeds `isFolder` (part_000, lines 158-160). -/
def isFolder (p : JupyterAbstractPath) : Bool := p.isDirectory

/-- Embeds the `inVault` method (part_000, lines 165-167). -/
def inVault (p : JupyterAbstractPath) : Bool := p.isInVault

/-- Embeds `append` (part_000, lines 179-196): throws unless the receiver is a
folder, strips one leading '/' from the segment, concatenates it onto the
absolute and (when present) relative paths, and constructs a new value with
the receiver's in-vault flag. -/
def append (p : JupyterAbstractPath) (relativePath : String)
    (isFolder : Bool) : Except JupyterError JupyterAbstractPath :=
  if ¬ p.isFolder then Except.error JupyterError.cannotAppendToFile
  else
    let rp := stripLeadingSlash relativePath
    construct (p.absolutePath ++ rp)
      (p.relativePath.map (fun r => r ++ rp)) isFolder p.inVault

/-- Embeds `fromAbsolute` (part_000, lines 208-221): fetches the vault root,
classifies in-vault by the prefix test, strips the root prefix via
`substring(vaultRoot.length)` when in-vault, and delegates to the
constructor. -/
def fromAbsolute (absolute : String) (isFolder : Bool) (v : Vault) :
    Except JupyterError JupyterAbstractPath := do
  let vaultRoot ← getVaultRootPath v
  let isInV ← IpynbViewerSpec.inVault absolute v (some vaultRoot)
  let relative := if isInV then some (jsDrop absolute vaultRoot.data.length)
                  else none
  construct absolute relative isFolder isInV

/-- Embeds `fromRelative` (part_000, lines 233-249): fetches the vault root,
ensures it ends with '/', strips one leading '/' from the relative path, and
constructs the in-vault value from the concatenation. -/
def fromRelative (relative : String) (isFolder : Bool) (v : Vault) :
    Except JupyterError JupyterAbstractPath := do
  let vaultRoot ← getVaultRootPath v
  let root := if ¬ strEndsWithSlash vaultRoot then vaultRoot ++ "/"
              else vaultRoot
  let rel := stripLeadingSlash relative
  construct (root ++ rel) (some rel) isFolder true

end JupyterAbstractPath

/-- The filesystem/UI effects performed by `createJupyterNotebook`, in order:
the existence probe on the adapter, the user-visible notice, the file write,
and opening the file in a leaf. -/
inductive FsEffect where
  | checkExists (path : String) (result : Bool)
  | notice (message : String)
  | write (path : String) (content : String)
  | openFile (path : String)
deriving DecidableEq, Repr

/-- The fixed minimal notebook document written verbatim by
`createJupyterNotebook` (main.ts, line 77): an empty cell list, placeholder
kernelspec and language_info, nbformat 4 and nbformat_minor 5. -/
def notebookTemplate : String :=
  "\x7b\"cells\": [],\"metadata\": \x7b\"kernelspec\": \x7b\"display_name\": \"\",\"name\": \"\"\x7d,\"language_info\": \x7b\"name\": \"\"\x7d\x7d,\"nbformat\": 4,\"nbformat_minor\": 5\x7d"

/-- The notice message emitted when the target file already exists
(main.ts, line 71). -/
def existsNotice (rel : String) : String :=
  "The file \"" ++ rel ++
  "\" already exists, creation was aborted to avoid overwriting it. Please try again."

/-- Embeds `IpynbViewer.createJupyterNotebook` (main.ts, lines 60-82).  The
timestamped default filename (built from the wall clock) is passed in as
`filename`; the adapter's `exists` probe is passed in as `fileExists`.  The
result is the ordered list of effects the call performs: the existence check,
the notice when the file exists, the write of the fixed notebook document, and
opening the file.  The `as string` cast of `getRelativePath()` is modelled by
defaulting `none` to the empty string. -/
def createJupyterNotebook (folder : JupyterAbstractPath) (filename : String)
    (fileExists : String → Bool) : Except JupyterError (List FsEffect) :=
  if ¬ folder.inVault then Except.error JupyterError.notebookOutsideVault
  else do
    let file ← folder.append filename false
    let rel := (file.getRelativePath).getD ""
    let noticeEffects :=
      if fileExists rel then [FsEffect.notice (existsNotice rel)] else []
    Except.ok (FsEffect.checkExists rel (fileExists rel) ::
      (noticeEffects ++
        [FsEffect.write rel notebookTemplate, FsEffect.openFile rel]))

end IpynbViewerSpec

deriving instance DecidableEq for Except

namespace IpynbViewerSpec

/-! Helper lemmas about `collapseSlashes` and `mapSlash`, the two phases of
the modelled `normalizePath`. -/

lemma collapseSlashes_cons_eq {a b : Char} (t : List Char)
    (h : a = '/' ∧ b = '/') :
    collapseSlashes (a :: b :: t) = collapseSlashes (b :: t) := by
  simp only [collapseSlashes, if_pos h]

lemma collapseSlashes_cons_ne {a b : Char} (t : List Char)
    (h : ¬ (a = '/' ∧ b = '/')) :
    collapseSlashes (a :: b :: t) = a :: collapseSlashes (b :: t) := by
  simp only [collapseSlashes, if_neg h]

lemma collapseSlashes_cons (b : Char) (t : List Char) :
    ∃ u, collapseSlashes (b :: t) = b :: u := by
  induction t generalizing b with
  | nil => exact ⟨[], rfl⟩
  | cons c t' ih =>
    by_cases h : b = '/' ∧ c = '/'
    · obtain ⟨u, hu⟩ := ih c
      refine ⟨u, ?_⟩
      rw [collapseSlashes_cons_eq _ h, hu, h.1, h.2]
    · exact ⟨collapseSlashes (c :: t'), collapseSlashes_cons_ne _ h⟩

lemma collapseSlashes_idem_append (x y : List Char) :
    collapseSlashes (collapseSlashes x ++ y) = collapseSlashes (x ++ y) := by
  induction x with
  | nil => rfl
  | cons a t ih =>
    cases t with
    | nil => rfl
    | cons b t' =>
      by_cases h : a = '/' ∧ b = '/'
      · rw [List.cons_append, List.cons_append,
          collapseSlashes_cons_eq (t' ++ y) h, collapseSlashes_cons_eq t' h, ih,
          List.cons_append]
      · obtain ⟨u, hu⟩ := collapseSlashes_cons b t'
        rw [List.cons_append, List.cons_append,
          collapseSlashes_cons_ne t' h, collapseSlashes_cons_ne (t' ++ y) h,
          hu, List.cons_append, List.cons_append,
          collapseSlashes_cons_ne (u ++ y) h, ← List.cons_append, ← hu, ih,
          List.cons_append]

lemma collapseSlashes_getLast? (l : List Char) :
    (collapseSlashes l).getLast? = l.getLast? := by
  induction l with
  | nil => rfl
  | cons a t ih =>
    cases t with
    | nil => rfl
    | cons b t' =>
      by_cases h : a = '/' ∧ b = '/'
      · rw [collapseSlashes_cons_eq _ h, ih, List.getLast?_cons_cons]
      · obtain ⟨u, hu⟩ := collapseSlashes_cons b t'
        rw [collapseSlashes_cons_ne _ h, hu, List.getLast?_cons_cons, ← hu, ih,
          List.getLast?_cons_cons]

lemma collapseSlashes_two (y : List Char) :
    collapseSlashes ('/' :: '/' :: y) = collapseSlashes ('/' :: y) :=
  collapseSlashes_cons_eq _ ⟨rfl, rfl⟩

lemma collapseSlashes_append_two (x y : List Char) :
    collapseSlashes (x ++ '/' :: '/' :: y) = collapseSlashes (x ++ '/' :: y) := by
  induction x with
  | nil => simpa using collapseSlashes_two y
  | cons a t ih =>
    cases t with
    | nil =>
      simp only [List.cons_append, List.nil_append]
      by_cases h : a = '/'
      · rw [collapseSlashes_cons_eq _ ⟨h, rfl⟩, collapseSlashes_two,
          collapseSlashes_cons_eq _ ⟨h, rfl⟩]
      · have h' : ¬ (a = '/' ∧ ('/' : Char) = '/') := fun hc => h hc.1
        rw [collapseSlashes_cons_ne _ h', collapseSlashes_cons_ne _ h',
          collapseSlashes_two]
    | cons b t' =>
      simp only [List.cons_append]
      by_cases h : a = '/' ∧ b = '/'
      · rw [collapseSlashes_cons_eq _ h, collapseSlashes_cons_eq _ h]
        simpa using ih
      · rw [collapseSlashes_cons_ne _ h, collapseSlashes_cons_ne _ h]
        have h2 := ih
        simp only [List.cons_append] at h2
        rw [h2]

lemma collapseSlashes_append_slash_of_getLast (x y : List Char)
    (h : x.getLast? = some '/') :
    collapseSlashes (x ++ '/' :: y) = collapseSlashes (x ++ y) := by
  obtain ⟨x', rfl⟩ := List.getLast?_eq_some_iff.mp h
  rw [List.append_assoc, List.append_assoc]
  simpa using collapseSlashes_append_two x' y

lemma slashify_slash : slashify '/' = '/' := rfl

lemma slashify_idem (c : Char) : slashify (slashify c) = slashify c := by
  unfold slashify
  by_cases h : c = '\\' <;> simp [h]

lemma mapSlash_append (x y : List Char) :
    mapSlash (x ++ y) = mapSlash x ++ mapSlash y := List.map_append _ _ _

lemma mapSlash_idem (l : List Char) : mapSlash (mapSlash l) = mapSlash l := by
  unfold mapSlash
  rw [List.map_map]
  exact List.map_congr_left (fun c _ => slashify_idem c)

lemma mapSlash_collapseSlashes_fixed (l : List Char) (h : mapSlash l = l) :
    mapSlash (collapseSlashes l) = collapseSlashes l := by
  induction l with
  | nil => rfl
  | cons a t ih =>
    have ha : slashify a = a := by
      have hh := congrArg List.head? h
      simpa [mapSlash] using hh
    have ht : mapSlash t = t := by
      have hh := congrArg List.tail h
      simpa [mapSlash] using hh
    cases t with
    | nil => simpa [collapseSlashes, mapSlash] using ha
    | cons b t' =>
      by_cases hc : a = '/' ∧ b = '/'
      · rw [collapseSlashes_cons_eq _ hc]
        exact ih ht
      · rw [collapseSlashes_cons_ne _ hc]
        have h2 := ih ht
        simpa [mapSlash, ha] using h2

lemma mapSlash_getLast?_slash (l : List Char) (h : l.getLast? = some '/') :
    (mapSlash l).getLast? = some '/' := by
  unfold mapSlash
  rw [List.getLast?_map, h]
  rfl

end IpynbViewerSpec

namespace IpynbViewerSpec

/-- List-level form of `stripLeadingSlash`. -/
def stripL (l : List Char) : List Char :=
  if l.head? = some '/' then l.tail else l

/-- List-level form of the trailing-separator rule the constructor applies to
folder paths: append '/' unless the list already ends with one. -/
def ensureSlashL (l : List Char) : List Char :=
  if l.getLast? = some '/' then l else l ++ ['/']

lemma stripLeadingSlash_data (s : String) :
    (stripLeadingSlash s).data = stripL s.data := by
  unfold stripLeadingSlash stripL strHeadSlash jsDrop
  by_cases h : s.data.head? = some '/'
  · simp [h, List.drop_one]
  · simp [h]

lemma stripL_append_cons (c : Char) (pt y : List Char) :
    stripL ((c :: pt) ++ y) = stripL (c :: pt) ++ y := by
  unfold stripL
  by_cases h : c = '/'
  · simp [h]
  · have h1 : ((c :: pt) ++ y).head? = some c := rfl
    have h2 : (c :: pt).head? = some c := rfl
    rw [h1, h2]
    simp [h]

lemma collapseSlashes_slash_strip (x ql : List Char) :
    collapseSlashes (x ++ '/' :: mapSlash (stripL ql))
      = collapseSlashes (x ++ '/' :: mapSlash ql) := by
  cases ql with
  | nil => rfl
  | cons c t =>
    by_cases h : c = '/'
    · subst h
      have hs : stripL ('/' :: t) = t := by simp [stripL]
      rw [hs]
      have hm : mapSlash ('/' :: t) = '/' :: mapSlash t := by
        simp [mapSlash, slashify_slash]
      rw [hm, collapseSlashes_append_two]
    · have hs : stripL (c :: t) = c :: t := by simp [stripL, h]
      rw [hs]

lemma collapseSlashes_strip_of_getLast (x ql : List Char)
    (h : x.getLast? = some '/') :
    collapseSlashes (x ++ mapSlash (stripL ql))
      = collapseSlashes (x ++ mapSlash ql) := by
  cases ql with
  | nil => rfl
  | cons c t =>
    by_cases hc : c = '/'
    · subst hc
      have hs : stripL ('/' :: t) = t := by simp [stripL]
      have hm : mapSlash ('/' :: t) = '/' :: mapSlash t := by
        simp [mapSlash, slashify_slash]
      rw [hs, hm, collapseSlashes_append_slash_of_getLast _ _ h]
    · have hs : stripL (c :: t) = c :: t := by simp [stripL, hc]
      rw [hs]

lemma mapSlash_ensureSlashL (l : List Char) (h : mapSlash l = l) :
    mapSlash (ensureSlashL l) = ensureSlashL l := by
  unfold ensureSlashL
  by_cases hl : l.getLast? = some '/'
  · simp [hl, h]
  · simp [hl, mapSlash_append, h]
    rfl

lemma mapSlash_cons_slash (t : List Char) :
    mapSlash ('/' :: t) = '/' :: mapSlash t := by
  simp [mapSlash, slashify_slash]

lemma core_list (a pl ql : List Char) (ha : a.getLast? = some '/') :
    collapseSlashes (mapSlash
        (ensureSlashL (collapseSlashes (mapSlash (a ++ stripL pl)))
          ++ stripL ql))
      = collapseSlashes (mapSlash (a ++ stripL (pl ++ '/' :: ql))) := by
  have hfix : mapSlash (collapseSlashes (mapSlash (a ++ stripL pl)))
      = collapseSlashes (mapSlash (a ++ stripL pl)) :=
    mapSlash_collapseSlashes_fixed _ (mapSlash_idem _)
  rw [mapSlash_append, mapSlash_ensureSlashL _ hfix]
  cases pl with
  | nil =>
    have hstrip : stripL ([] : List Char) = [] := rfl
    have hrhs : stripL (([] : List Char) ++ '/' :: ql) = ql := by
      simp [stripL]
    rw [hstrip, hrhs, List.append_nil]
    have hn : (collapseSlashes (mapSlash a)).getLast? = some '/' := by
      rw [collapseSlashes_getLast?]
      exact mapSlash_getLast?_slash a ha
    have he : ensureSlashL (collapseSlashes (mapSlash a))
        = collapseSlashes (mapSlash a) := by
      unfold ensureSlashL
      rw [if_pos hn]
    rw [he, collapseSlashes_idem_append, mapSlash_append]
    exact collapseSlashes_strip_of_getLast _ _ (mapSlash_getLast?_slash a ha)
  | cons c pt =>
    rw [stripL_append_cons]
    rw [show a ++ (stripL (c :: pt) ++ '/' :: ql)
        = (a ++ stripL (c :: pt)) ++ '/' :: ql from (List.append_assoc _ _ _).symm]
    rw [mapSlash_append (a ++ stripL (c :: pt)), mapSlash_cons_slash]
    by_cases hn : (collapseSlashes (mapSlash (a ++ stripL (c :: pt)))).getLast?
        = some '/'
    · have hX : (mapSlash (a ++ stripL (c :: pt))).getLast? = some '/' := by
        rw [← collapseSlashes_getLast?]
        exact hn
      have he : ensureSlashL (collapseSlashes (mapSlash (a ++ stripL (c :: pt))))
          = collapseSlashes (mapSlash (a ++ stripL (c :: pt))) := by
        unfold ensureSlashL
        rw [if_pos hn]
      rw [he, collapseSlashes_idem_append,
        collapseSlashes_strip_of_getLast _ _ hX,
        collapseSlashes_append_slash_of_getLast _ _ hX]
    · have he : ensureSlashL (collapseSlashes (mapSlash (a ++ stripL (c :: pt))))
          = collapseSlashes (mapSlash (a ++ stripL (c :: pt))) ++ ['/'] := by
        unfold ensureSlashL
        rw [if_neg hn]
      rw [he, List.append_assoc, List.singleton_append,
        collapseSlashes_idem_append, collapseSlashes_slash_strip]

end IpynbViewerSpec

namespace IpynbViewerSpec

lemma normalizePath_data (s : String) :
    (normalizePath s).data = collapseSlashes (mapSlash s.data) := rfl

lemma normalizeAbs_true_data (z : String) :
    (JupyterAbstractPath.normalizeAbs true z).data
      = ensureSlashL ((normalizePath z).data) := by
  unfold JupyterAbstractPath.normalizeAbs ensureSlashL
  by_cases h : strEndsWithSlash (normalizePath z) = true
  · have h' : (normalizePath z).data.getLast? = some '/' := by
      simpa [strEndsWithSlash] using h
    simp [h, h']
  · have h' : ¬ (normalizePath z).data.getLast? = some '/' := by
      simpa [strEndsWithSlash] using h
    simp [h, h']

lemma normalizePath_two_step (A p q : String)
    (hA : strEndsWithSlash A = true) :
    normalizePath (JupyterAbstractPath.normalizeAbs true
        (A ++ stripLeadingSlash p) ++ stripLeadingSlash q)
      = normalizePath (A ++ stripLeadingSlash (p ++ "/" ++ q)) := by
  apply String.ext
  show collapseSlashes (mapSlash
      ((JupyterAbstractPath.normalizeAbs true (A ++ stripLeadingSlash p)
        ++ stripLeadingSlash q).data))
    = collapseSlashes (mapSlash ((A ++ stripLeadingSlash (p ++ "/" ++ q)).data))
  have hd : (p ++ "/" ++ q).data = p.data ++ '/' :: q.data := by
    rw [String.data_append, String.data_append, List.append_assoc]
    rfl
  rw [String.data_append, normalizeAbs_true_data, normalizePath_data,
    String.data_append, stripLeadingSlash_data, stripLeadingSlash_data,
    String.data_append, stripLeadingSlash_data, hd]
  exact core_list A.data p.data q.data (by simpa [strEndsWithSlash] using hA)

lemma normalizeAbs_congr (f : Bool) {z z' : String}
    (h : normalizePath z = normalizePath z') :
    JupyterAbstractPath.normalizeAbs f z = JupyterAbstractPath.normalizeAbs f z' := by
  unfold JupyterAbstractPath.normalizeAbs
  rw [h]

end IpynbViewerSpec

namespace IpynbViewerSpec

lemma ok_bind {e a b : Type} (x : a) (f : a → Except e b) :
    (Except.ok x : Except e a) >>= f = f x := rfl

lemma error_bind {e a b : Type} (err : e) (f : a → Except e b) :
    (Except.error err : Except e a) >>= f = Except.error err := rfl

lemma map_ok {e a b : Type} (f : a → b) (x : a) :
    (Except.ok x : Except e a).map f = Except.ok (f x) := rfl

lemma map_error {e a b : Type} (f : a → b) (err : e) :
    (Except.error err : Except e a).map f = Except.error err := rfl

/-- The trailing-separator rule for folder paths as the spec words it: a
separator is appended when absent. -/
def ensureTrailingSlash (s : String) : String :=
  if strEndsWithSlash s then s else s ++ "/"

/-- Claim C1 (code_bug evaluation): the trailing-separator invariant fails for
the relative path of file-flagged values.  Line 117 of part_000 truncates the
relative path to `absolute.length - 1` characters (a typo for
`relative.length - 1`); since the processed absolute path is longer than the
relative one, JavaScript `substring` clamps and returns the relative path
unchanged, keeping its trailing separator.  Here `fromRelative "x/" false`
under vault root "/vault/sub" produces a file-flagged value whose relative
path is still "x/". -/
theorem c1_file_relative_keeps_trailing_separator :
    (JupyterAbstractPath.fromRelative "x/" false ⟨some "/vault/sub"⟩).map
        (fun p => (p.isFolder, p.getAbsolutePath, p.getRelativePath))
      = Except.ok (false, "/vault/sub/x", some "x/")
    ∧ strEndsWithSlash "x/" = true := by
  exact ⟨by decide, by decide⟩

/-- Claim C2 (code_bug evaluation): `fromRelative` does not return the
relative path in normalized form.  The constructor normalizes only the
absolute path (line 96); the relative path is stored as given, contradicting
the class documentation (lines 66 and 141) that guarantees it normalized.
For `r = "a//b"` (a redundant separator) the stored relative path keeps the
double slash while its normalized form is "a/b". -/
theorem c2_relative_path_not_normalized :
    (JupyterAbstractPath.fromRelative "a//b" false ⟨some "/v"⟩).map
        JupyterAbstractPath.getRelativePath = Except.ok (some "a//b")
    ∧ normalizePath "a//b" = "a/b"
    ∧ ("a//b" : String) ≠ "a/b" := by
  refine ⟨by decide, by decide, by decide⟩

/-- Claim C3 (counterexample): `fromAbsolute` tests the prefix against the
vault root exactly as returned by the adapter, with no normalization.  With
the un-normalized root "/v//w" and absolute path "/v/w/x", the path starts
with the normalized form "/v/w" of the root, yet the code classifies it as
not in the vault. -/
theorem c3_normalized_root_counterexample :
    (JupyterAbstractPath.fromAbsolute "/v/w/x" false ⟨some "/v//w"⟩).map
        JupyterAbstractPath.inVault = Except.ok false
    ∧ strStartsWith "/v/w/x" (normalizePath "/v//w") = true := by
  exact ⟨by decide, by decide⟩

/-- Claim C3 as amended: `fromAbsolute(a, f, vault)` classifies in-vault true
iff `a` starts with the root string exactly as provided (not normalized);
when in-vault, the relative path is `a` with its first `|root|` characters
removed, then adjusted by the constructor's trailing-separator rule: for a
folder a separator is ensured, and for a file whose stripped remainder does
not end with a separator it is exactly the remainder. -/
theorem c3_fromAbsolute_amended (a root : String) (f : Bool) :
    (JupyterAbstractPath.fromAbsolute a f ⟨some root⟩).map
        JupyterAbstractPath.inVault = Except.ok (strStartsWith a root)
    ∧ (strStartsWith a root = true → f = true →
        (JupyterAbstractPath.fromAbsolute a f ⟨some root⟩).map
            JupyterAbstractPath.getRelativePath
          = Except.ok (some (ensureTrailingSlash (jsDrop a root.length))))
    ∧ (strStartsWith a root = true → f = false →
        strEndsWithSlash (jsDrop a root.length) = false →
        (JupyterAbstractPath.fromAbsolute a f ⟨some root⟩).map
            JupyterAbstractPath.getRelativePath
          = Except.ok (some (jsDrop a root.length))) := by
  refine ⟨?_, ?_, ?_⟩
  · cases hs : strStartsWith a root <;>
      simp [JupyterAbstractPath.fromAbsolute, JupyterAbstractPath.construct,
        getVaultRootPath, inVault, JupyterAbstractPath.inVault, hs,
        ok_bind, error_bind, map_ok, map_error]
  · intro hs hf
    subst hf
    have hadj : JupyterAbstractPath.adjustRel true
        (JupyterAbstractPath.normalizeAbs true a) (jsDrop a root.length)
        = ensureTrailingSlash (jsDrop a root.length) := by
      unfold JupyterAbstractPath.adjustRel ensureTrailingSlash
      cases he : strEndsWithSlash (jsDrop a root.length) <;> simp [he]
    simp [JupyterAbstractPath.fromAbsolute, JupyterAbstractPath.construct,
      getVaultRootPath, inVault, JupyterAbstractPath.getRelativePath, hs,
      ok_bind, error_bind, map_ok, map_error, hadj]
  · intro hs hf he
    subst hf
    have hadj : JupyterAbstractPath.adjustRel false
        (JupyterAbstractPath.normalizeAbs false a) (jsDrop a root.length)
        = jsDrop a root.length := by
      unfold JupyterAbstractPath.adjustRel
      simp [he]
    simp [JupyterAbstractPath.fromAbsolute, JupyterAbstractPath.construct,
      getVaultRootPath, inVault, JupyterAbstractPath.getRelativePath, hs,
      ok_bind, error_bind, map_ok, map_error, hadj]

/-- Witness for `c3_fromAbsolute_amended` at concrete arguments. -/
theorem c3_fromAbsolute_amended_witness :
    (JupyterAbstractPath.fromAbsolute "/v/x" false ⟨some "/v/"⟩).map
        JupyterAbstractPath.inVault
      = Except.ok (strStartsWith "/v/x" "/v/")
    ∧ (JupyterAbstractPath.fromAbsolute "/v/x" false ⟨some "/v/"⟩).map
        JupyterAbstractPath.getRelativePath
      = Except.ok (some (jsDrop "/v/x" ("/v/" : String).length)) :=
  ⟨(c3_fromAbsolute_amended "/v/x" "/v/" false).1,
   (c3_fromAbsolute_amended "/v/x" "/v/" false).2.2 (by decide) rfl (by decide)⟩

/-- Claim C4: `append` on a file-flagged value (directory flag unset) always
fails with the invalid-operation error, for any arguments; it never returns a
value. -/
theorem c4_append_on_file_fails (p : JupyterAbstractPath) (rp : String)
    (f : Bool) (h : p.isFolder = false) :
    p.append rp f = Except.error JupyterError.cannotAppendToFile := by
  simp [JupyterAbstractPath.append, h]

/-- Witness for `c4_append_on_file_fails` at a concrete file-flagged value. -/
theorem c4_append_on_file_fails_witness :
    (⟨"/v/a.txt", some "a.txt", false, true⟩ : JupyterAbstractPath).append
        "b" true = Except.error JupyterError.cannotAppendToFile :=
  c4_append_on_file_fails _ "b" true rfl

/-- Claim C5: for a directory-flagged value `x` (satisfying the class
invariant that its absolute path ends with a separator, which the constructor
guarantees for every directory-flagged instance), appending `p` as a
directory and then `q` yields the same absolute path as appending the
concatenation `p/q` directly, for any directory flag of the final step.
Both sides agree even on the error case. -/
theorem c5_append_then_append_absolute (x : JupyterAbstractPath)
    (p q : String) (isDir2 : Bool) (hdir : x.isDirectory = true)
    (habs : strEndsWithSlash x.absolutePath = true) :
    ((x.append p true).bind (fun y => y.append q isDir2)).map
        JupyterAbstractPath.getAbsolutePath
      = (x.append (p ++ "/" ++ q) isDir2).map
        JupyterAbstractPath.getAbsolutePath := by
  have hkey : JupyterAbstractPath.normalizeAbs isDir2
      (JupyterAbstractPath.normalizeAbs true
        (x.absolutePath ++ stripLeadingSlash p) ++ stripLeadingSlash q)
      = JupyterAbstractPath.normalizeAbs isDir2
        (x.absolutePath ++ stripLeadingSlash (p ++ "/" ++ q)) :=
    normalizeAbs_congr _ (normalizePath_two_step _ p q habs)
  cases hV : x.isInVault with
  | false =>
    simp [JupyterAbstractPath.append, JupyterAbstractPath.construct,
      JupyterAbstractPath.isFolder, JupyterAbstractPath.inVault,
      JupyterAbstractPath.getAbsolutePath, Except.bind, Except.map,
      hdir, hV, hkey]
  | true =>
    cases hR : x.relativePath with
    | none =>
      simp [JupyterAbstractPath.append, JupyterAbstractPath.construct,
        JupyterAbstractPath.isFolder, JupyterAbstractPath.inVault,
        JupyterAbstractPath.getAbsolutePath, Except.bind, Except.map,
        hdir, hV, hR]
    | some r =>
      simp [JupyterAbstractPath.append, JupyterAbstractPath.construct,
        JupyterAbstractPath.isFolder, JupyterAbstractPath.inVault,
        JupyterAbstractPath.getAbsolutePath, Except.bind, Except.map,
        hdir, hV, hR, hkey]

/-- Witness for `c5_append_then_append_absolute` at a concrete directory. -/
theorem c5_append_then_append_absolute_witness :
    (((⟨"/vault/", some "", true, true⟩ : JupyterAbstractPath).append
          "a" true).bind (fun y => y.append "b" false)).map
        JupyterAbstractPath.getAbsolutePath
      = ((⟨"/vault/", some "", true, true⟩ : JupyterAbstractPath).append
          ("a" ++ "/" ++ "b") false).map JupyterAbstractPath.getAbsolutePath :=
  c5_append_then_append_absolute _ "a" "b" false rfl (by decide)

/-- Claim C6: with vault root "/vault/", the value
`fromRelative("Notes/", true).append("2024-Log.ipynb", false)` has absolute
path "/vault/Notes/2024-Log.ipynb" and relative path
"Notes/2024-Log.ipynb". -/
theorem c6_example_notebook_path :
    ((JupyterAbstractPath.fromRelative "Notes/" true ⟨some "/vault/"⟩).bind
        (fun p => p.append "2024-Log.ipynb" false)).map
        (fun p => (p.getAbsolutePath, p.getRelativePath))
      = Except.ok ("/vault/Notes/2024-Log.ipynb", some "Notes/2024-Log.ipynb") := by
  decide

/-- Claim C7: the constructor throws the invalid-operation error exactly when
asked for an in-vault value with no relative path; every successfully
constructed value stores a relative path iff its in-vault flag is set, and
`getRelativePath` returns the "not applicable" sentinel `none` exactly when
`inVault()` is false. -/
theorem c7_relative_iff_in_vault (a : String) (r : Option String)
    (f iv : Bool) :
    (iv = true → r = none →
      JupyterAbstractPath.construct a r f iv
        = Except.error JupyterError.invalidArgument)
    ∧ (∀ p, JupyterAbstractPath.construct a r f iv = Except.ok p →
        ((p.relativePath ≠ none) ↔ p.isInVault = true)
        ∧ (p.getRelativePath = none ↔ p.inVault = false)) := by
  constructor
  · intro hiv hr
    subst hiv
    subst hr
    simp [JupyterAbstractPath.construct]
  · intro p hp
    cases iv with
    | false =>
      have hp' : (⟨JupyterAbstractPath.normalizeAbs f a, none, f, false⟩ :
          JupyterAbstractPath) = p := by
        simpa [JupyterAbstractPath.construct] using hp
      subst hp'
      simp [JupyterAbstractPath.getRelativePath, JupyterAbstractPath.inVault]
    | true =>
      cases r with
      | none => simp [JupyterAbstractPath.construct] at hp
      | some s =>
        have hp' : (⟨JupyterAbstractPath.normalizeAbs f a,
            some (JupyterAbstractPath.adjustRel f
              (JupyterAbstractPath.normalizeAbs f a) s), f, true⟩ :
            JupyterAbstractPath) = p := by
          simpa [JupyterAbstractPath.construct] using hp
        subst hp'
        simp [JupyterAbstractPath.getRelativePath, JupyterAbstractPath.inVault]

/-- Witness for `c7_relative_iff_in_vault`: the error case and the
file-in-vault case at concrete arguments. -/
theorem c7_relative_iff_in_vault_witness :
    JupyterAbstractPath.construct "/v/a" none false true
      = Except.error JupyterError.invalidArgument
    ∧ (((⟨"/v/a", some "a", false, true⟩ : JupyterAbstractPath).relativePath
          ≠ none)
        ↔ (⟨"/v/a", some "a", false, true⟩ :
            JupyterAbstractPath).isInVault = true) :=
  ⟨(c7_relative_iff_in_vault "/v/a" none false true).1 rfl rfl,
   ((c7_relative_iff_in_vault "/v/a" (some "a") false true).2
      ⟨"/v/a", some "a", false, true⟩ (by decide)).1⟩

/-- Claim C8: for an in-vault folder, the pre-existing-file check in
`createJupyterNotebook` is advisory only.  Even when the existence probe
answers true, the call emits the user-visible notice and then still writes
the fixed minimal notebook document (`notebookTemplate`, copied verbatim from
the source) to the target path, and opens it. -/
theorem c8_exists_check_is_advisory (folder : JupyterAbstractPath)
    (filename : String) (fileExists : String → Bool)
    (file : JupyterAbstractPath) (rel : String)
    (hv : folder.inVault = true)
    (happ : folder.append filename false = Except.ok file)
    (hrel : file.getRelativePath = some rel)
    (hex : fileExists rel = true) :
    createJupyterNotebook folder filename fileExists
      = Except.ok [FsEffect.checkExists rel true,
          FsEffect.notice (existsNotice rel),
          FsEffect.write rel notebookTemplate,
          FsEffect.openFile rel] := by
  simp [createJupyterNotebook, hv, happ, hrel, hex, ok_bind]

/-- Witness for `c8_exists_check_is_advisory` at a concrete in-vault folder
with an existence probe that always answers true. -/
theorem c8_exists_check_is_advisory_witness :
    createJupyterNotebook ⟨"/v/Notes/", some "Notes/", true, true⟩
        "nb.ipynb" (fun _ => true)
      = Except.ok [FsEffect.checkExists "Notes/nb.ipynb" true,
          FsEffect.notice (existsNotice "Notes/nb.ipynb"),
          FsEffect.write "Notes/nb.ipynb" notebookTemplate,
          FsEffect.openFile "Notes/nb.ipynb"] :=
  c8_exists_check_is_advisory _ _ _
    ⟨"/v/Notes/nb.ipynb", some "Notes/nb.ipynb", false, true⟩
    "Notes/nb.ipynb" rfl (by decide) rfl rfl

/-- Claim C10: when the folder argument is not in the vault,
`createJupyterNotebook` throws before performing any filesystem operation:
the result is the bare error with an empty effect trace, so no existence
check, write, or open happens and the vault is unchanged. -/
theorem c10_outside_vault_throws_before_effects (folder : JupyterAbstractPath)
    (filename : String) (fileExists : String → Bool)
    (h : folder.inVault = false) :
    createJupyterNotebook folder filename fileExists
      = Except.error JupyterError.notebookOutsideVault := by
  simp [createJupyterNotebook, h]

/-- Witness for `c10_outside_vault_throws_before_effects` at a concrete
out-of-vault folder. -/
theorem c10_outside_vault_throws_before_effects_witness :
    createJupyterNotebook ⟨"/outside/", none, true, false⟩ "nb.ipynb"
        (fun _ => true)
      = Except.error JupyterError.notebookOutsideVault :=
  c10_outside_vault_throws_before_effects _ "nb.ipynb" (fun _ => true) rfl

/-- Claim C9: `append` on a directory-flagged value returns a new value
derived purely from the receiver's fields — the embedding is pure, as is the
source method, which only reads `this` and constructs a fresh object, so the
receiver's four fields are unchanged.  The new value inherits the receiver's
in-vault flag, and the child segment has a single leading separator stripped
before being concatenated onto both the absolute and (when present) relative
paths (the constructor's normalization and trailing-separator adjustment then
apply).  The hypothesis `hwf` is the class invariant relating the stored
relative path to the in-vault flag (established in `c7_relative_iff_in_vault`
for every constructed value). -/
theorem c9_append_returns_derived_value (x : JupyterAbstractPath)
    (seg : String) (f : Bool) (hdir : x.isDirectory = true)
    (hwf : x.relativePath.isSome = x.isInVault) :
    ∃ y, x.append seg f = Except.ok y
      ∧ y.isInVault = x.isInVault
      ∧ y.isDirectory = f
      ∧ y.absolutePath
          = JupyterAbstractPath.normalizeAbs f
              (x.absolutePath ++ stripLeadingSlash seg)
      ∧ (∀ r, x.relativePath = some r →
          y.relativePath = some (JupyterAbstractPath.adjustRel f
            (JupyterAbstractPath.normalizeAbs f
              (x.absolutePath ++ stripLeadingSlash seg))
            (r ++ stripLeadingSlash seg))) := by
  cases hV : x.isInVault with
  | false =>
    have hR : x.relativePath = none := by
      rw [hV] at hwf
      exact Option.not_isSome_iff_eq_none.mp (by simp [hwf])
    refine ⟨⟨JupyterAbstractPath.normalizeAbs f
        (x.absolutePath ++ stripLeadingSlash seg), none, f, false⟩, ?_, ?_, ?_, ?_, ?_⟩
    · simp [JupyterAbstractPath.append, JupyterAbstractPath.construct,
        JupyterAbstractPath.isFolder, JupyterAbstractPath.inVault, hdir, hV, hR]
    · simp [hV]
    · rfl
    · rfl
    · intro r hr
      rw [hr] at hR
      exact absurd hR (by simp)
  | true =>
    have hR : ∃ r, x.relativePath = some r := by
      rw [hV] at hwf
      exact Option.isSome_iff_exists.mp hwf
    obtain ⟨r, hr⟩ := hR
    refine ⟨⟨JupyterAbstractPath.normalizeAbs f
        (x.absolutePath ++ stripLeadingSlash seg),
        some (JupyterAbstractPath.adjustRel f
          (JupyterAbstractPath.normalizeAbs f
            (x.absolutePath ++ stripLeadingSlash seg))
          (r ++ stripLeadingSlash seg)), f, true⟩, ?_, ?_, ?_, ?_, ?_⟩
    · simp [JupyterAbstractPath.append, JupyterAbstractPath.construct,
        JupyterAbstractPath.isFolder, JupyterAbstractPath.inVault, hdir, hV, hr]
    · simp [hV]
    · rfl
    · rfl
    · intro r' hr'
      rw [hr] at hr'
      cases hr'
      rfl

/-- Witness for `c9_append_returns_derived_value` at a concrete folder. -/
theorem c9_append_returns_derived_value_witness :
    ∃ y, (⟨"/v/d/", some "d/", true, true⟩ : JupyterAbstractPath).append
          "f.ipynb" false = Except.ok y
      ∧ y.isInVault = (⟨"/v/d/", some "d/", true, true⟩ :
          JupyterAbstractPath).isInVault
      ∧ y.isDirectory = false
      ∧ y.absolutePath
          = JupyterAbstractPath.normalizeAbs false
              ((⟨"/v/d/", some "d/", true, true⟩ :
                JupyterAbstractPath).absolutePath
                ++ stripLeadingSlash "f.ipynb")
      ∧ (∀ r, (⟨"/v/d/", some "d/", true, true⟩ :
            JupyterAbstractPath).relativePath = some r →
          y.relativePath = some (JupyterAbstractPath.adjustRel false
            (JupyterAbstractPath.normalizeAbs false
              ((⟨"/v/d/", some "d/", true, true⟩ :
                JupyterAbstractPath).absolutePath
                ++ stripLeadingSlash "f.ipynb"))
            (r ++ stripLeadingSlash "f.ipynb"))) :=
  c9_append_returns_derived_value _ "f.ipynb" false rfl rfl

end IpynbViewerSpec
